import Mathlib

/-!
Verification of the qstream client library: a shallow embedding of the
status-string decoder (`parse_status` in `qstream/parser.py`), the scalar
value coercions of `qstream/client.py` (`get_air_quality`, `get_level`),
and the timer command encoder (`set_timer` / `cancel_timer`), together
with theorems settling the specification claims about them.

Strings are modelled as Lean `String` / `List Char`.  The regular
expressions used by the decoder all have the shape
`<literal> (\d+) <literal>`; Python's `re.search` semantics for such a
pattern (leftmost match, greedy digit run — backtracking of `\d+` can
never help because both literal suffixes start with a non-digit) is
modelled by `searchNum`.  The digit class `\d` is modelled as the ASCII
digits `0`-`9`.
-/

/-- Tests whether `p` is a (leading) prefix of `s`, character by character.
Models Python's `str.startswith` as used implicitly by substring search. -/
def beginsWith : List Char → List Char → Bool
  | [], _ => true
  | _ :: _, [] => false
  | p :: ps, c :: cs => p == c && beginsWith ps cs

/-- Tests whether `p` occurs as a contiguous substring of `s`.
Models the Python expression `p in s` on strings. -/
def containsSub (p : List Char) : List Char → Bool
  | [] => beginsWith p []
  | c :: cs => beginsWith p (c :: cs) || containsSub p cs

/-- Decimal value of a run of ASCII digits; models `int()` applied to the
captured group of a `(\d+)` pattern (which is always a nonempty digit run). -/
def digitsVal (l : List Char) : Nat :=
  l.foldl (fun n c => 10 * n + (c.toNat - 48)) 0

/-- Attempts to match the pattern `<pre>(\d+)<suf>` at the very start of `s`:
the literal `pre`, then a maximal nonempty ASCII digit run, then the literal
`suf`.  Returns the captured number on success. -/
def matchNumAt (pre suf s : List Char) : Option Nat :=
  if beginsWith pre s then
    let rest := (s.drop pre.length)
    let ds := rest.takeWhile Char.isDigit
    if ds.isEmpty then none
    else if beginsWith suf (rest.dropWhile Char.isDigit) then some (digitsVal ds)
    else none
  else none

/-- Models `re.search(r"<pre>(\d+)<suf>", s)` for literal `pre`/`suf` whose
suffix starts with a non-digit: scan left to right, return the number captured
at the first position where the pattern matches, or `none`. -/
def searchNum (pre suf : List Char) : List Char → Option Nat
  | [] => matchNumAt pre suf []
  | c :: cs =>
    match matchNumAt pre suf (c :: cs) with
    | some n => some n
    | none => searchNum pre suf cs

instance {ε α : Type} [DecidableEq ε] [DecidableEq α] : DecidableEq (Except ε α) := fun x y =>
  match x, y with
  | Except.ok a, Except.ok b =>
      if h : a = b then isTrue (by rw [h]) else isFalse (by simp [h])
  | Except.error a, Except.error b =>
      if h : a = b then isTrue (by rw [h]) else isFalse (by simp [h])
  | Except.ok _, Except.error _ => isFalse (by simp)
  | Except.error _, Except.ok _ => isFalse (by simp)

/-- Schedule mode, from `qstream/models.py` (`ScheduleMode`). -/
inductive ScheduleMode where
  | DAY : ScheduleMode
  | NIGHT : ScheduleMode
deriving DecidableEq

/-- Response-format error, from `qstream/exceptions.py`
(`QStreamResponseError`): a message plus the optional raw offending text. -/
structure QStreamResponseError where
  message : String
  raw_response : Option String
deriving DecidableEq

/-- Parsed device status, from `qstream/models.py` (`QStreamStatus`). -/
structure QStreamStatus where
  timer_active : Bool
  timer_remaining_minutes : Option Nat
  schedule_enabled : Bool
  schedule_remaining_minutes : Option Nat
  schedule_mode : Option ScheduleMode
  analog_flow : Nat
  set_flow : Nat
  actual_flow : Nat
  demand_control_enabled : Bool
  valve_open : Bool
  raw_value : String
deriving DecidableEq

/-- Embedding of `parse_status` from `qstream/parser.py`.  The `except`
clause of the source catches only `AttributeError`/`ValueError`, neither of
which can occur (every `int()` call converts a nonempty digit run), so the
only failure path is the explicit "Missing required flow values" raise,
which that clause does not intercept. -/
def parse_status (raw_value : String) : Except QStreamResponseError QStreamStatus :=
  let timer_active := containsSub ("TIMER ACTIVE".data) raw_value.data
  let timer_remaining_minutes := searchNum ("TIMER ACTIVE ".data) (" MIN".data) raw_value.data
  let schedule_enabled := containsSub ("SCHEDULE ON".data) raw_value.data
  let schedule_remaining_minutes := searchNum ("SCHEDULE ON ".data) (" MIN".data) raw_value.data
  let schedule_mode : Option ScheduleMode :=
    if schedule_enabled then
      if containsSub ("DAY".data) raw_value.data then some ScheduleMode.DAY
      else if containsSub ("NIGHT".data) raw_value.data then some ScheduleMode.NIGHT
      else none
    else none
  match searchNum ("Qanalog ".data) ("%".data) raw_value.data,
        searchNum ("Qset ".data) ("%".data) raw_value.data,
        searchNum ("Qactual ".data) ("%".data) raw_value.data with
  | some analog_flow, some set_flow, some actual_flow =>
    Except.ok {
      timer_active := timer_active
      timer_remaining_minutes := timer_remaining_minutes
      schedule_enabled := schedule_enabled
      schedule_remaining_minutes := schedule_remaining_minutes
      schedule_mode := schedule_mode
      analog_flow := analog_flow
      set_flow := set_flow
      actual_flow := actual_flow
      demand_control_enabled := containsSub ("DEMAND CONTROL ON".data) raw_value.data
      valve_open := containsSub ("VALVE OPEN".data) raw_value.data
      raw_value := raw_value }
  | _, _, _ => Except.error ⟨"Missing required flow values", some raw_value⟩

/-- Tests for an ASCII whitespace character as stripped by Python `int()`
applied to a string. -/
def isPySpace (c : Char) : Bool :=
  c == ' ' || c == '\t' || c == '\n' || c == '\r' || c == '\x0b' || c == '\x0c'

/-- Continues parsing a decimal digit run in which single underscores may
separate digits (Python numeric-literal grouping accepted by `int()`);
`acc` is the value of the digits consumed so far. -/
def pyIntAux (acc : Nat) : List Char → Option Nat
  | [] => some acc
  | c :: cs =>
    if c.isDigit then pyIntAux (10 * acc + (c.toNat - 48)) cs
    else if c == '_' then
      match cs with
      | [] => none
      | d :: cs₂ =>
        if d.isDigit then pyIntAux (10 * acc + (d.toNat - 48)) cs₂ else none
    else none

/-- Parses a nonempty digit run (with optional single underscores between
digits) as a decimal number. -/
def pyIntCore : List Char → Option Nat
  | [] => none
  | c :: cs => if c.isDigit then pyIntAux (c.toNat - 48) cs else none

/-- Models Python `int()` applied to a string (restricted to ASCII): strips
surrounding whitespace, accepts one optional sign, then a nonempty run of
ASCII decimal digits with optional single underscores between digits; any
other input raises `ValueError`, modelled as `none`. -/
def pyInt (s : String) : Option Int :=
  let t := ((s.data.dropWhile isPySpace).reverse.dropWhile isPySpace).reverse
  match t with
  | '+' :: rest => (pyIntCore rest).map (fun n => (n : Int))
  | '-' :: rest => (pyIntCore rest).map (fun n => -(n : Int))
  | _ => (pyIntCore t).map (fun n => (n : Int))

/-- Decoded JSON envelope returned by the transport, as consumed by the
value coercions: only its optional top-level `"Value"` string field is
read by the code under verification. -/
structure Envelope where
  value : Option String
deriving DecidableEq

/-- Models `data.get("Value", d)` on the decoded envelope dict. -/
def envValueD (data : Envelope) (d : String) : String :=
  match data.value with
  | some v => v
  | none => d

/-- Models Python `str(data)` / f-string interpolation of the decoded
envelope dict, for envelopes whose value string contains no quote or
backslash characters (the only ones the theorems evaluate it on):
`{'Value': 'v'}` when the field is present, `{}` when absent. -/
def pyStrEnvelope (data : Envelope) : String :=
  match data.value with
  | some v => "\x7b\x27Value\x27: \x27" ++ v ++ "\x27\x7d"
  | none => "\x7b\x7d"

/-- Embedding of the response coercion of `QStreamClient.get_air_quality`
(`qstream/client.py`): `int(data.get("Value", "0"))`, with `ValueError`
wrapped into a `QStreamResponseError` whose message interpolates the whole
envelope dict and whose `raw_response` is `str(data)`. -/
def get_air_quality (data : Envelope) : Except QStreamResponseError Int :=
  match pyInt (envValueD data "0") with
  | some n => Except.ok n
  | none =>
    Except.error ⟨"Invalid AQI value: " ++ pyStrEnvelope data, some (pyStrEnvelope data)⟩

/-- Models Python `s.rstrip("%")`: removes every trailing occurrence of the
character `c`. -/
def pyRstrip (s : String) (c : Char) : String :=
  ⟨((s.data.reverse.dropWhile (fun x => x == c))).reverse⟩

/-- Embedding of the response coercion of `QStreamClient.get_level`
(`qstream/client.py`): `int(value_str.rstrip("%"))` on
`value_str = data.get("Value", "0%")`, with `ValueError` wrapped into a
`QStreamResponseError` carrying the original unstripped `value_str`. -/
def get_level (data : Envelope) : Except QStreamResponseError Int :=
  let value_str := envValueD data "0%"
  match pyInt (pyRstrip value_str '%') with
  | some n => Except.ok n
  | none =>
    Except.error ⟨"Invalid level value: " ++ value_str, some value_str⟩

/-- Embedding of the command string built by `QStreamClient.set_timer`
(`qstream/client.py`): the f-string
`TIMER {duration_minutes} MIN {speed_percentage}% DEMAND CONTROL {demand} NIGHT`
with `demand = "ON" if demand_control else "OFF"`. -/
def set_timer_command (duration_minutes : Int) (speed_percentage : Int)
    (demand_control : Bool) : String :=
  let demand := if demand_control then "ON" else "OFF"
  "TIMER " ++ toString duration_minutes ++ " MIN " ++ toString speed_percentage ++
    "% DEMAND CONTROL " ++ demand ++ " NIGHT"

/-- Embedding of the command string posted by `QStreamClient.cancel_timer`
(`qstream/client.py`). -/
def cancel_timer_command : String := "TIMER 0 MIN"

/-- Status string of the first worked example in the specification. -/
def specExampleOne : String :=
  "TIMER ACTIVE 2 MIN Qanalog 0% Qset 38% Qactual 38% DEMAND CONTROL OFF DAY VALVE CLOSED"

/-- Status record produced by decoding `specExampleOne`. -/
def specExampleOneStatus : QStreamStatus :=
  ⟨true, some 2, false, none, none, 0, 38, 38, false, false, specExampleOne⟩

/-- Status string of the second worked example in the specification. -/
def specExampleTwo : String :=
  "TIMER INACTIVE SCHEDULE ON 25 MIN Qanalog 0% Qset 28% Qactual 28% DEMAND CONTROL ON NIGHT VALVE CLOSED"

/-- Status record produced by decoding `specExampleTwo`. -/
def specExampleTwoStatus : QStreamStatus :=
  ⟨false, none, true, some 25, some ScheduleMode.NIGHT, 0, 28, 28, true, false, specExampleTwo⟩

/-- Shortening the pattern preserves a positive `beginsWith` test. -/
theorem beginsWith_append (p q : List Char) :
    ∀ s, beginsWith (p ++ q) s = true → beginsWith p s = true := by
  induction p with
  | nil => intro s _; rfl
  | cons a ps ih =>
    intro s h
    cases s with
    | nil => simp [beginsWith] at h
    | cons c cs =>
      simp only [List.cons_append, beginsWith, Bool.and_eq_true] at h ⊢
      exact ⟨h.1, ih cs h.2⟩

/-- Shortening the pattern preserves a positive substring test. -/
theorem containsSub_weaken (p q : List Char) :
    ∀ s, containsSub (p ++ q) s = true → containsSub p s = true := by
  intro s
  induction s with
  | nil =>
    intro h
    simp only [containsSub] at h ⊢
    exact beginsWith_append p q [] h
  | cons c cs ih =>
    intro h
    simp only [containsSub, Bool.or_eq_true] at h ⊢
    rcases h with h | h
    · exact Or.inl (beginsWith_append p q _ h)
    · exact Or.inr (ih h)

/-- Matching `<pre>(\d+)<suf>` at the head of `s` requires `pre` to lead `s`. -/
theorem matchNumAt_some_begins (pre suf s : List Char) (n : Nat)
    (h : matchNumAt pre suf s = some n) : beginsWith pre s = true := by
  cases hb : beginsWith pre s with
  | true => rfl
  | false => simp [matchNumAt, hb] at h

/-- Finding `<pre>(\d+)<suf>` anywhere in `s` requires `pre` to occur as a
substring of `s`. -/
theorem searchNum_some_contains (pre suf : List Char) :
    ∀ s n, searchNum pre suf s = some n → containsSub pre s = true := by
  intro s
  induction s with
  | nil =>
    intro n h
    simp only [searchNum] at h
    simp only [containsSub]
    exact matchNumAt_some_begins pre suf [] n h
  | cons c cs ih =>
    intro n h
    simp only [searchNum] at h
    simp only [containsSub, Bool.or_eq_true]
    cases hm : matchNumAt pre suf (c :: cs) with
    | some m => exact Or.inl (matchNumAt_some_begins pre suf _ m hm)
    | none =>
      rw [hm] at h
      exact Or.inr (ih n h)

/-- Failing substring test for the marker `p` rules out any match of a
pattern whose literal prefix extends `p`. -/
theorem searchNum_none_of_not_contains (p q suf s : List Char)
    (h : containsSub p s = false) : searchNum (p ++ q) suf s = none := by
  cases hs : searchNum (p ++ q) suf s with
  | none => rfl
  | some n =>
    have hc := containsSub_weaken p q s (searchNum_some_contains (p ++ q) suf s n hs)
    rw [h] at hc
    exact absurd hc (by simp)

/-- Inversion of a successful decode: every field of the returned status is
the value `parse_status` computes for it from the raw string. -/
theorem parse_status_ok_fields (raw : String) (st : QStreamStatus)
    (h : parse_status raw = Except.ok st) :
    st.timer_active = containsSub ("TIMER ACTIVE".data) raw.data ∧
    st.timer_remaining_minutes = searchNum ("TIMER ACTIVE ".data) (" MIN".data) raw.data ∧
    st.schedule_enabled = containsSub ("SCHEDULE ON".data) raw.data ∧
    st.schedule_remaining_minutes = searchNum ("SCHEDULE ON ".data) (" MIN".data) raw.data ∧
    st.schedule_mode = (if containsSub ("SCHEDULE ON".data) raw.data then
        if containsSub ("DAY".data) raw.data then some ScheduleMode.DAY
        else if containsSub ("NIGHT".data) raw.data then some ScheduleMode.NIGHT
        else none
      else none) ∧
    searchNum ("Qanalog ".data) ("%".data) raw.data = some st.analog_flow ∧
    searchNum ("Qset ".data) ("%".data) raw.data = some st.set_flow ∧
    searchNum ("Qactual ".data) ("%".data) raw.data = some st.actual_flow ∧
    st.demand_control_enabled = containsSub ("DEMAND CONTROL ON".data) raw.data ∧
    st.valve_open = containsSub ("VALVE OPEN".data) raw.data ∧
    st.raw_value = raw := by
  unfold parse_status at h
  cases ha : searchNum ("Qanalog ".data) ("%".data) raw.data with
  | none =>
    rw [ha] at h
    exact Except.noConfusion
      (show Except.error (⟨"Missing required flow values", some raw⟩ : QStreamResponseError) =
        Except.ok st from h)
  | some a =>
  cases hb : searchNum ("Qset ".data) ("%".data) raw.data with
  | none =>
    rw [ha, hb] at h
    exact Except.noConfusion
      (show Except.error (⟨"Missing required flow values", some raw⟩ : QStreamResponseError) =
        Except.ok st from h)
  | some b =>
  cases hc : searchNum ("Qactual ".data) ("%".data) raw.data with
  | none =>
    rw [ha, hb, hc] at h
    exact Except.noConfusion
      (show Except.error (⟨"Missing required flow values", some raw⟩ : QStreamResponseError) =
        Except.ok st from h)
  | some c =>
    rw [ha, hb, hc] at h
    injection h with h
    subst h
    exact ⟨rfl, rfl, rfl, rfl, rfl, rfl, rfl, rfl, rfl, rfl, rfl⟩

/-- Claim C1: for every input string in which at least one of the three
patterns `Qanalog <digits>%`, `Qset <digits>%`, `Qactual <digits>%` has no
match, decode fails with a ResponseFormat error whose message is exactly
"Missing required flow values" and whose attached raw text equals the
original input string. -/
theorem c1_missing_flow_error (raw : String)
    (h : searchNum ("Qanalog ".data) ("%".data) raw.data = none ∨
         searchNum ("Qset ".data) ("%".data) raw.data = none ∨
         searchNum ("Qactual ".data) ("%".data) raw.data = none) :
    parse_status raw = Except.error ⟨"Missing required flow values", some raw⟩ := by
  unfold parse_status
  rcases h with h | h | h
  · rw [h]
  · cases ha : searchNum ("Qanalog ".data) ("%".data) raw.data with
    | none => rfl
    | some a => rw [h]
  · cases ha : searchNum ("Qanalog ".data) ("%".data) raw.data with
    | none => rfl
    | some a =>
      cases hb : searchNum ("Qset ".data) ("%".data) raw.data with
      | none => rfl
      | some b => rw [h]

/-- Witness for C1 at the spec's "INVALID STATUS STRING" example, in which
the `Qanalog` pattern has no match. -/
theorem c1_missing_flow_error_witness :
    parse_status "INVALID STATUS STRING" =
      Except.error ⟨"Missing required flow values", some "INVALID STATUS STRING"⟩ :=
  c1_missing_flow_error "INVALID STATUS STRING" (Or.inl (by decide))

/-- Claim C2: for every input string in which all three patterns
`Qanalog <digits>%`, `Qset <digits>%`, `Qactual <digits>%` have a match,
decode succeeds (returns a status, no error) and the `raw_value` field of
the result equals the input string exactly.  The conclusion exhibits the
full record returned, whose `raw_value` field is the untouched input. -/
theorem c2_ok_roundtrip (raw : String) (a b c : Nat)
    (ha : searchNum ("Qanalog ".data) ("%".data) raw.data = some a)
    (hb : searchNum ("Qset ".data) ("%".data) raw.data = some b)
    (hc : searchNum ("Qactual ".data) ("%".data) raw.data = some c) :
    parse_status raw = Except.ok {
      timer_active := containsSub ("TIMER ACTIVE".data) raw.data
      timer_remaining_minutes := searchNum ("TIMER ACTIVE ".data) (" MIN".data) raw.data
      schedule_enabled := containsSub ("SCHEDULE ON".data) raw.data
      schedule_remaining_minutes := searchNum ("SCHEDULE ON ".data) (" MIN".data) raw.data
      schedule_mode :=
        if containsSub ("SCHEDULE ON".data) raw.data then
          if containsSub ("DAY".data) raw.data then some ScheduleMode.DAY
          else if containsSub ("NIGHT".data) raw.data then some ScheduleMode.NIGHT
          else none
        else none
      analog_flow := a
      set_flow := b
      actual_flow := c
      demand_control_enabled := containsSub ("DEMAND CONTROL ON".data) raw.data
      valve_open := containsSub ("VALVE OPEN".data) raw.data
      raw_value := raw } := by
  unfold parse_status
  rw [ha, hb, hc]

/-- Witness for C2 at a concrete status string containing all three flow
patterns. -/
theorem c2_ok_roundtrip_witness :
    parse_status "Qanalog 0% Qset 38% Qactual 38%" =
      Except.ok ⟨false, none, false, none, none, 0, 38, 38, false, false,
        "Qanalog 0% Qset 38% Qactual 38%"⟩ :=
  c2_ok_roundtrip "Qanalog 0% Qset 38% Qactual 38%" 0 38 38
    (by decide) (by decide) (by decide)

/-- Counterexample to claim C3: decoding the concrete input
"TIMER ACTIVE Qanalog 0% Qset 0% Qactual 0%" — which contains the literal
"TIMER ACTIVE" but no match of `TIMER ACTIVE <digits> MIN` — succeeds with
`timer_active = true` and `timer_remaining_minutes = none`, so the claimed
"set iff active" invariant is false. -/
theorem c3_counterexample :
    ¬ (∀ (raw : String) (st : QStreamStatus), parse_status raw = Except.ok st →
        st.timer_remaining_minutes.isSome = st.timer_active) := by
  intro hclaim
  have h := hclaim "TIMER ACTIVE Qanalog 0% Qset 0% Qactual 0%"
    ⟨true, none, false, none, none, 0, 0, 0, false, false,
      "TIMER ACTIVE Qanalog 0% Qset 0% Qactual 0%"⟩ (by decide)
  exact absurd h (by decide)

/-- Claim C3 (amended): for every input on which decode succeeds, if
`timer_remaining_minutes` is set then `timer_active` is true; the converse
does not hold — an input containing "TIMER ACTIVE" without the minute
pattern yields `timer_active = true` with `timer_remaining_minutes` unset,
the degraded-but-valid state the algorithm section of the spec describes. -/
theorem c3_timer_minutes_implies_active (raw : String) (st : QStreamStatus)
    (h : parse_status raw = Except.ok st)
    (hr : st.timer_remaining_minutes.isSome = true) : st.timer_active = true := by
  obtain ⟨hta, htr, -, -, -, -, -, -, -, -, -⟩ := parse_status_ok_fields raw st h
  rw [htr] at hr
  cases hs : searchNum ("TIMER ACTIVE ".data) (" MIN".data) raw.data with
  | none => rw [hs] at hr; exact absurd hr (by simp)
  | some n =>
    have hcontains := searchNum_some_contains ("TIMER ACTIVE ".data) (" MIN".data) raw.data n hs
    have heq : ("TIMER ACTIVE".data) ++ (" ".data) = ("TIMER ACTIVE ".data) := by decide
    rw [hta]
    exact containsSub_weaken ("TIMER ACTIVE".data) (" ".data) raw.data (heq.symm ▸ hcontains)

/-- Witness for the amended C3 at the spec's first worked example, whose
timer pattern matches with 2 minutes remaining. -/
theorem c3_timer_minutes_implies_active_witness :
    specExampleOneStatus.timer_active = true :=
  c3_timer_minutes_implies_active specExampleOne specExampleOneStatus
    (by decide) (by decide)

/-- Claim C4: for every input string on which decode succeeds, if
`schedule_enabled` is false in the result then `schedule_remaining_minutes`
and `schedule_mode` are both unset, regardless of what other text (such as
"DAY" or "NIGHT") appears in the input. -/
theorem c4_schedule_disabled_unset (raw : String) (st : QStreamStatus)
    (h : parse_status raw = Except.ok st) (hs : st.schedule_enabled = false) :
    st.schedule_remaining_minutes = none ∧ st.schedule_mode = none := by
  obtain ⟨-, -, hse, hsr, hsm, -, -, -, -, -, -⟩ := parse_status_ok_fields raw st h
  rw [hse] at hs
  constructor
  · rw [hsr]
    have heq : ("SCHEDULE ON".data) ++ (" ".data) = ("SCHEDULE ON ".data) := by decide
    rw [← heq]
    exact searchNum_none_of_not_contains ("SCHEDULE ON".data) (" ".data) (" MIN".data) raw.data hs
  · rw [hsm, hs]
    simp

/-- Witness for C4 at the spec's first worked example, in which the
schedule marker is absent although the token "DAY" occurs in the input. -/
theorem c4_schedule_disabled_unset_witness :
    specExampleOneStatus.schedule_remaining_minutes = none ∧
      specExampleOneStatus.schedule_mode = none :=
  c4_schedule_disabled_unset specExampleOne specExampleOneStatus
    (by decide) (by decide)

/-- Claim C5: for every input string on which decode succeeds with
`schedule_enabled = true`: if the input contains the substring "DAY"
anywhere then the mode is DAY (even if "NIGHT" also occurs); if it contains
"NIGHT" but not "DAY" the mode is NIGHT; if it contains neither, the mode
is unset. -/
theorem c5_mode_day_priority (raw : String) (st : QStreamStatus)
    (h : parse_status raw = Except.ok st) (hs : st.schedule_enabled = true) :
    (containsSub ("DAY".data) raw.data = true → st.schedule_mode = some ScheduleMode.DAY) ∧
    (containsSub ("DAY".data) raw.data = false → containsSub ("NIGHT".data) raw.data = true →
      st.schedule_mode = some ScheduleMode.NIGHT) ∧
    (containsSub ("DAY".data) raw.data = false → containsSub ("NIGHT".data) raw.data = false →
      st.schedule_mode = none) := by
  obtain ⟨-, -, hse, -, hsm, -, -, -, -, -, -⟩ := parse_status_ok_fields raw st h
  rw [hse] at hs
  rw [hsm, hs]
  refine ⟨fun hd => by simp [hd], fun hd hn => by simp [hd, hn], fun hd hn => by simp [hd, hn]⟩

/-- Witness for C5 at the spec's second worked example, in which the
schedule is enabled and "NIGHT" occurs but "DAY" does not. -/
theorem c5_mode_day_priority_witness :
    specExampleTwoStatus.schedule_mode = some ScheduleMode.NIGHT :=
  (c5_mode_day_priority specExampleTwo specExampleTwoStatus
    (by decide) (by decide)).2.1 (by decide) (by decide)

/-- Counterexample to claim C6: decoding the concrete input
"Qanalog 150% Qset 0% Qactual 0%" succeeds with `analog_flow = 150`, so the
claimed upper bound of 100 on the flow fields is false (the parser performs
no range check). -/
theorem c6_counterexample :
    ¬ (∀ (raw : String) (st : QStreamStatus), parse_status raw = Except.ok st →
        st.analog_flow ≤ 100 ∧ st.set_flow ≤ 100 ∧ st.actual_flow ≤ 100) := by
  intro hclaim
  have h := hclaim "Qanalog 150% Qset 0% Qactual 0%"
    ⟨false, none, false, none, none, 150, 0, 0, false, false,
      "Qanalog 150% Qset 0% Qactual 0%"⟩ (by decide)
  exact absurd h.1 (by decide)

/-- Claim C6 (amended): for every input on which decode succeeds, each of
the three flow fields equals exactly the nonnegative integer captured by
its pattern (nonnegativity holds by construction from the digit run); no
upper bound is enforced, so values above 100 pass through unchanged. -/
theorem c6_flows_are_captured_values (raw : String) (st : QStreamStatus)
    (h : parse_status raw = Except.ok st) :
    searchNum ("Qanalog ".data) ("%".data) raw.data = some st.analog_flow ∧
    searchNum ("Qset ".data) ("%".data) raw.data = some st.set_flow ∧
    searchNum ("Qactual ".data) ("%".data) raw.data = some st.actual_flow := by
  obtain ⟨-, -, -, -, -, ha, hb, hc, -, -, -⟩ := parse_status_ok_fields raw st h
  exact ⟨ha, hb, hc⟩

/-- Witness for the amended C6 at the spec's first worked example. -/
theorem c6_flows_are_captured_values_witness :
    searchNum ("Qanalog ".data) ("%".data) specExampleOne.data = some 0 ∧
    searchNum ("Qset ".data) ("%".data) specExampleOne.data = some 38 ∧
    searchNum ("Qactual ".data) ("%".data) specExampleOne.data = some 38 :=
  c6_flows_are_captured_values specExampleOne specExampleOneStatus (by decide)

/-- Counterexample to claim C7: on the non-integer value "not_a_number" the
air-quality coercion does fail, but the attached raw text is the string
rendering of the whole decoded envelope dict (Python `str(data)`), which
differs from the raw `Value` string the claim asserts. -/
theorem c7_counterexample :
    get_air_quality ⟨some "not_a_number"⟩ =
      Except.error ⟨"Invalid AQI value: \x7b\x27Value\x27: \x27not_a_number\x27\x7d",
        some "\x7b\x27Value\x27: \x27not_a_number\x27\x7d"⟩ ∧
    (some "\x7b\x27Value\x27: \x27not_a_number\x27\x7d" : Option String) ≠
      some "not_a_number" :=
  ⟨by decide, by decide⟩

/-- Claim C7 (amended): the air-quality coercion, applied to any `Value`
string that does not parse as a base-10 integer, fails with a
ResponseFormat error whose message names the invalid value by interpolating
the whole envelope dict and whose attached raw text is `str(data)` — the
rendering of the entire envelope, not the bare `Value` string; applied to a
base-10 integer string such as "16" it returns that integer. -/
theorem c7_aqi_coercion (data : Envelope) :
    (pyInt (envValueD data "0") = none →
      get_air_quality data =
        Except.error ⟨"Invalid AQI value: " ++ pyStrEnvelope data, some (pyStrEnvelope data)⟩) ∧
    (∀ n : Int, pyInt (envValueD data "0") = some n → get_air_quality data = Except.ok n) := by
  constructor
  · intro h
    unfold get_air_quality
    rw [h]
  · intro n h
    unfold get_air_quality
    rw [h]

/-- Witness for the amended C7: the integer string "16" coerces to 16, and
the non-integer string "abc" produces the envelope-rendering error. -/
theorem c7_aqi_coercion_witness :
    get_air_quality ⟨some "16"⟩ = Except.ok 16 ∧
    get_air_quality ⟨some "abc"⟩ =
      Except.error ⟨"Invalid AQI value: " ++ pyStrEnvelope ⟨some "abc"⟩,
        some (pyStrEnvelope ⟨some "abc"⟩)⟩ :=
  ⟨(c7_aqi_coercion ⟨some "16"⟩).2 16 (by decide),
   (c7_aqi_coercion ⟨some "abc"⟩).1 (by decide)⟩

/-- Counterexample to claim C8: the code strips ALL trailing percent
characters (`str.rstrip`), so on "50%%" — which the claim says is not an
integer after a single strip and hence must fail — the coercion succeeds
with 50.  The second conjunct records that after stripping only one
percent character the remainder "50%" indeed does not parse. -/
theorem c8_counterexample :
    get_level ⟨some "50%%"⟩ = Except.ok 50 ∧ pyInt "50%" = none :=
  ⟨by decide, by decide⟩

/-- Claim C8 (amended): the preset-level coercion strips every trailing
percent character (Python `rstrip("%")`) and then parses the remainder as a
base-10 integer, so "38%" yields 38 and "50%%" yields 50; on parse failure
it raises a ResponseFormat error attaching the original unstripped input
string (e.g. "invalid%"). -/
theorem c8_level_coercion (data : Envelope) :
    (∀ n : Int, pyInt (pyRstrip (envValueD data "0%") '%') = some n →
      get_level data = Except.ok n) ∧
    (pyInt (pyRstrip (envValueD data "0%") '%') = none →
      get_level data =
        Except.error ⟨"Invalid level value: " ++ envValueD data "0%",
          some (envValueD data "0%")⟩) := by
  constructor
  · intro n h
    simp only [get_level]
    rw [h]
  · intro h
    simp only [get_level]
    rw [h]

/-- Witness for the amended C8: "38%" coerces to 38, and "invalid%" fails
with the original unstripped string attached. -/
theorem c8_level_coercion_witness :
    get_level ⟨some "38%"⟩ = Except.ok 38 ∧
    get_level ⟨some "invalid%"⟩ =
      Except.error ⟨"Invalid level value: " ++ envValueD ⟨some "invalid%"⟩ "0%",
        some (envValueD ⟨some "invalid%"⟩ "0%")⟩ :=
  ⟨(c8_level_coercion ⟨some "38%"⟩).1 38 (by decide),
   (c8_level_coercion ⟨some "invalid%"⟩).2 (by decide)⟩

/-- Claim C9: the timer command encoder, for every duration, speed and
demand flag, produces exactly the string
`TIMER <minutes> MIN <percent>% DEMAND CONTROL <ON|OFF> NIGHT`
(in particular `set_timer(30, 50, demand=false)` encodes
"TIMER 30 MIN 50% DEMAND CONTROL OFF NIGHT"), and cancel-timer always
produces exactly the string "TIMER 0 MIN". -/
theorem c9_timer_encoding :
    (∀ (duration_minutes speed_percentage : Int) (demand_control : Bool),
      set_timer_command duration_minutes speed_percentage demand_control =
        "TIMER " ++ toString duration_minutes ++ " MIN " ++ toString speed_percentage ++
          "% DEMAND CONTROL " ++ (if demand_control then "ON" else "OFF") ++ " NIGHT") ∧
    set_timer_command 30 50 false = "TIMER 30 MIN 50% DEMAND CONTROL OFF NIGHT" ∧
    cancel_timer_command = "TIMER 0 MIN" :=
  ⟨fun _ _ _ => rfl, by decide, rfl⟩

/-- Claim C10: when the decoded JSON envelope has no "Value" field, the
air-quality coercion returns 0 (default "0" substituted and parsed) and the
preset-level coercion returns 0 (default "0%" substituted, stripped and
parsed), rather than raising a ResponseFormat error. -/
theorem c10_missing_value_defaults :
    get_air_quality ⟨none⟩ = Except.ok 0 ∧ get_level ⟨none⟩ = Except.ok 0 :=
  ⟨by decide, by decide⟩
